import Mathlib

set_option autoImplicit false

namespace GeoSpatial

/-!
Shallow embedding of
`src/django_elasticsearch_dsl_drf/filter_backends/filtering/geo_spatial.py`
(class `GeoSpatialFilteringFilterBackend`).

Python strings are `String`; Python dicts whose keys are computed at run
time are association lists with in-place update on key collision (the
semantics of a Python dict literal / item assignment); the multi-valued
request query parameters are ordered association lists from key to value
list; the Elasticsearch `Search` object is the ordered list of query
clauses accumulated by `.query(...)`, each clause being the pair of the
query name passed to `Q` and its keyword parameters.

Operations whose Python counterpart can raise (list indexing, `['lookups']`
item access on an arbitrary object, `.get` on an arbitrary object) also get
checked variants returning `Except String`, used to state that the
component never raises.
-/

/-- Modelled from the spec: the constant `LOOKUP_FILTER_GEO_DISTANCE` is
imported from `constants.py`, which is not among the provided sources; per
the spec (§6) it is the string naming the geo-distance lookup type,
`"geo_distance"`. -/
def LOOKUP_FILTER_GEO_DISTANCE : String := "geo_distance"

/-- Modelled from the spec: the constant
`ALL_GEO_SPATIAL_LOOKUP_FILTERS_AND_QUERIES` is imported from
`constants.py`, which is not among the provided sources; per the spec
(§4.1, §3) it is the fixed list of all supported geo-spatial lookups,
containing in particular the geo-distance lookup identifier. -/
def ALL_GEO_SPATIAL_LOOKUP_FILTERS_AND_QUERIES : List String :=
  [LOOKUP_FILTER_GEO_DISTANCE, "geo_polygon", "geo_bounding_box"]

/-- First occurrence of the non-empty separator `sep` in `s`: returns the
part strictly before it and the part strictly after it, scanning left to
right; `none` when `sep` does not occur. -/
def findSep (sep : List Char) : List Char → Option (List Char × List Char)
  | [] => none
  | c :: rest =>
    if sep.isPrefixOf (c :: rest) then some ([], (c :: rest).drop sep.length)
    else (findSep sep rest).map (fun pq => (c :: pq.1, pq.2))

/-- Python `str.split(sep, maxsplit)` for a non-empty separator: split on
the leftmost occurrences of `sep`, at most `maxsplit` times; the remainder
(separators included) is the last component. Always returns at least one
component. -/
def pySplit (sep : List Char) : Nat → List Char → List (List Char)
  | 0, s => [s]
  | m + 1, s =>
    match findSep sep s with
    | none => [s]
    | some pq => pq.1 :: pySplit sep m pq.2

/-- Modelled from the spec: `FilterBackendMixin.split_lookup_value` (in
`filter_backends/mixins.py`, not among the provided sources) splits a raw
lookup value on the fixed compound-value delimiter — a colon per the
spec's examples (§4.3, §8) — with the given maximum number of splits. -/
def split_lookup_value (value : String) (maxsplit : Nat) : List String :=
  (pySplit [':'] maxsplit value.toList).map (fun cs => String.mk cs)

/-- Modelled from the spec: `FilterBackendMixin.split_lookup_filter` (in
`filter_backends/mixins.py`, not among the provided sources) splits a query
parameter key on the reserved double-underscore separator (§4.2, §6), with
the given maximum number of splits. -/
def split_lookup_filter (value : String) (maxsplit : Nat) : List String :=
  (pySplit ['_', '_'] maxsplit value.toList).map (fun cs => String.mk cs)

/-- Python `str.strip()` whitespace (ASCII): space, tab, newline, carriage
return, form feed, vertical tab. -/
def pyIsSpace (c : Char) : Bool :=
  c == ' ' || c == '\t' || c == '\n' || c == '\r' || c == '\x0c' || c == '\x0b'

/-- Python `str.strip()`: remove leading and trailing whitespace. -/
def pyStrip (s : String) : String :=
  String.mk (((s.toList.dropWhile pyIsSpace).reverse.dropWhile pyIsSpace).reverse)

/-- A value stored in the keyword-parameter dict handed to
`Q('geo_distance', **params)`: either a plain string or the nested
`{lat: ..., lon: ...}` point dict. -/
inductive PVal where
  | s (v : String)
  | pt (lat lon : String)
  deriving DecidableEq, Repr

/-- A Python dict with string keys and `PVal` values, as an ordered
association list (insertion order, unique keys by construction of
`dictInsert`). -/
abbrev Dict := List (String × PVal)

/-- Python `d[k] = v` (and successive keys of a dict literal): if `k` is
present, its value is updated in place keeping its position; otherwise the
pair is appended at the end. -/
def dictInsert (d : Dict) (k : String) (v : PVal) : Dict :=
  match d with
  | [] => [(k, v)]
  | (k0, v0) :: rest =>
    if k0 = k then (k0, v) :: rest else (k0, v0) :: dictInsert rest k v

/-- Python `d.get(k)`: the value at key `k`, if present. -/
def dictFind (d : Dict) (k : String) : Option PVal :=
  match d with
  | [] => none
  | (k0, v0) :: rest => if k0 = k then some v0 else dictFind rest k

/-- One clause accumulated on the `Search` object: the query name passed
to `Q` together with its keyword parameters. -/
abbrev Clause := String × Dict

/-- One entry of the view's `geo_spatial_filter_fields` configuration:
`None`, a plain target-field string, or a (partial) options dict with
optional `field` and `lookups` keys. -/
inductive FieldOption where
  | null
  | str (s : String)
  | obj (field : Option String) (lookups : Option (List String))
  deriving DecidableEq, Repr

/-- `GeoSpatialFilteringFilterBackend.prepare_filter_fields` (source lines
58-82): for each configured field, a `None` or plain-string option becomes
`{'field': options or field}` (Python `or`: an empty string is falsy, so
the logical field name is used then), an options dict missing `'field'`
gets the logical field name, and any entry missing `'lookups'` gets the
full `ALL_GEO_SPATIAL_LOOKUP_FILTERS_AND_QUERIES` tuple. -/
def prepare_filter_fields (filter_fields : List (String × FieldOption)) :
    List (String × FieldOption) :=
  filter_fields.map (fun e =>
    let field := e.1
    let withField : FieldOption :=
      match e.2 with
      | .null => .obj (some field) none
      | .str s => .obj (some (if s = "" then field else s)) none
      | .obj none l => .obj (some field) l
      | .obj (some f) l => .obj (some f) l
    let withLookups : FieldOption :=
      match withField with
      | .obj f none => .obj f (some ALL_GEO_SPATIAL_LOOKUP_FILTERS_AND_QUERIES)
      | o => o
    (field, withLookups))

/-- `GeoSpatialFilteringFilterBackend.get_geo_distance_params` (source
lines 84-112): split the raw value on the compound delimiter with
`maxsplit=3`; fewer than 3 components yield the empty dict; otherwise
build `{'distance': v0, field: {'lat': v1, 'lon': v2}}` — a dict literal
with the target field name as a dynamically computed key — and set
`'distance_type'` to `v3` when exactly 4 components are present, else to
`'sloppy_arc'`. -/
def get_geo_distance_params (value field : String) : Dict :=
  let xs := split_lookup_value value 3
  if xs.length < 3 then []
  else
    let params := dictInsert (dictInsert [] "distance" (.s (xs.headD "")))
      field (.pt (xs.getD 1 "") (xs.getD 2 ""))
    if xs.length = 4 then dictInsert params "distance_type" (.s (xs.getD 3 ""))
    else dictInsert params "distance_type" (.s "sloppy_arc")

/-- The intermediate record built by `get_filter_query_params` for one
recognized query parameter (source lines 171-179). -/
structure FilterParam where
  lookup : Option String
  values : List String
  field : String
  type : String
  deriving DecidableEq, Repr

/-- `GeoSpatialFilteringFilterBackend.apply_query_geo_distance` (source
lines 114-132): `queryset.query(Q('geo_distance', **params))` — the clause
is appended unconditionally, whatever `params` is. -/
def apply_query_geo_distance (queryset : List Clause) (options : FilterParam)
    (value : String) : List Clause :=
  queryset ++ [("geo_distance", get_geo_distance_params value options.field)]

/-- The request's query parameters: an ordered multi-valued mapping from
key to the list of values under that key (keys unique, as in a Django
`QueryDict`). -/
abbrev QueryParams := List (String × List String)

/-- `query_params.getlist(k)`: the value list stored under key `k`, empty
when the key is absent. -/
def getlist (query_params : QueryParams) (k : String) : List String :=
  match query_params.find? (fun e => e.1 == k) with
  | some e => e.2
  | none => []

/-- The view object, as far as this backend reads it: the
`geo_spatial_filter_fields` configuration and the `mapping` name. -/
structure View where
  geo_spatial_filter_fields : List (String × FieldOption)
  mapping : String

/-- Membership test `field_name in filter_fields` together with the item
access `filter_fields[field_name]`. -/
def lookupField (filter_fields : List (String × FieldOption)) (k : String) :
    Option FieldOption :=
  (filter_fields.find? (fun e => e.1 == k)).map (fun e => e.2)

/-- `filter_fields[field_name]['lookups']` (source line 160), total
variant: defaults to the empty list where Python would raise; the checked
variant `FieldOption.lookupsE` records the raise instead. -/
def FieldOption.lookupsGet : FieldOption → List String
  | .obj _ (some l) => l
  | _ => []

/-- `filter_fields[field_name].get('field', field_name)` (source lines
174-177), total variant: falls back to the default where Python would
raise on a non-dict; checked variant: `FieldOption.fieldGetE`. -/
def FieldOption.fieldGetD : FieldOption → String → String
  | .obj (some f) _, _ => f
  | _, d => d

/-- The list comprehension of source lines 163-168: strip each raw value,
keeping only those that are non-empty after stripping, in order. -/
def cleanValues (vs : List String) : List String :=
  vs.filterMap (fun v =>
    let t := pyStrip v
    if t = "" then none else some t)

/-- The acceptance condition of source line 162:
`lookup_param is None or lookup_param in valid_lookups`. -/
def lookupAllowed (lookup_param : Option String) (valid_lookups : List String) :
    Bool :=
  match lookup_param with
  | none => true
  | some lp => valid_lookups.contains lp

/-- The body of the `for query_param in query_params` loop of
`get_filter_query_params` (source lines 148-179): split the key on the
double-underscore separator with `maxsplit=1`; skip the key when its
field-name prefix is not configured; read the optional lookup suffix;
accept when no suffix is given or the suffix is among the field's
`'lookups'`; strip the values, dropping empties; emit nothing when no
value survives; otherwise emit the entry stored in the result dict. -/
def processKey (filter_fields : List (String × FieldOption))
    (query_params : QueryParams) (mapping : String) (query_param : String) :
    List (String × FilterParam) :=
  let query_param_list := split_lookup_filter query_param 1
  let field_name := query_param_list.headD ""
  match lookupField filter_fields field_name with
  | none => []
  | some opts =>
    let lookup_param := query_param_list.get? 1
    let valid_lookups := opts.lookupsGet
    if lookupAllowed lookup_param valid_lookups then
      let values := cleanValues (getlist query_params query_param)
      if values.isEmpty then []
      else [(query_param, ⟨lookup_param, values, opts.fieldGetD field_name, mapping⟩)]
    else []

/-- `GeoSpatialFilteringFilterBackend.get_filter_query_params` (source
lines 134-180): normalize the configuration, then run the loop body over
the request's keys in order, accumulating the result dict. -/
def get_filter_query_params (request : QueryParams) (view : View) :
    List (String × FilterParam) :=
  let filter_fields := prepare_filter_fields view.geo_spatial_filter_fields
  request.foldl
    (fun acc e => acc ++ processKey filter_fields request view.mapping e.1) []

/-- The dispatch inside the inner loop of `filter_queryset` (source lines
199-204): only the geo-distance lookup is wired to an action; every other
lookup leaves the queryset untouched. -/
def applyValue (queryset : List Clause) (options : FilterParam) (value : String) :
    List Clause :=
  if options.lookup = some LOOKUP_FILTER_GEO_DISTANCE then
    apply_query_geo_distance queryset options value
  else queryset

/-- The `for value in options['values']` inner loop of `filter_queryset`. -/
def applyOptions (queryset : List Clause) (options : FilterParam) : List Clause :=
  options.values.foldl (fun qs v => applyValue qs options v) queryset

/-- `GeoSpatialFilteringFilterBackend.filter_queryset` (source lines
182-211): fold the per-parameter inner loop over the extracted filter
parameters, in order. -/
def filter_queryset (request : QueryParams) (queryset : List Clause)
    (view : View) : List Clause :=
  (get_filter_query_params request view).foldl
    (fun qs e => applyOptions qs e.2) queryset

/-- Checked Python list indexing `xs[i]`: `IndexError` when out of range. -/
def listGetE (xs : List String) (i : Nat) : Except String String :=
  match xs.get? i with
  | some v => Except.ok v
  | none => Except.error "IndexError"

/-- Checked variant of `get_geo_distance_params`: every list indexing is
explicit and raises `IndexError` when out of range. -/
def get_geo_distance_paramsE (value field : String) : Except String Dict := do
  let xs := split_lookup_value value 3
  if xs.length < 3 then
    return []
  else
    let v0 ← listGetE xs 0
    let v1 ← listGetE xs 1
    let v2 ← listGetE xs 2
    let params := dictInsert (dictInsert [] "distance" (.s v0)) field (.pt v1 v2)
    if xs.length = 4 then
      let v3 ← listGetE xs 3
      return dictInsert params "distance_type" (.s v3)
    else
      return dictInsert params "distance_type" (.s "sloppy_arc")

/-- Checked `filter_fields[field_name]['lookups']`: `KeyError` when the
`'lookups'` key is missing, `TypeError` when the entry is not a dict. -/
def FieldOption.lookupsE : FieldOption → Except String (List String)
  | .obj _ (some l) => Except.ok l
  | .obj _ none => Except.error "KeyError: lookups"
  | _ => Except.error "TypeError: entry is not a dict"

/-- Checked `filter_fields[field_name].get('field', field_name)`:
`AttributeError` when the entry is not a dict. -/
def FieldOption.fieldGetE : FieldOption → String → Except String String
  | .obj (some f) _, _ => Except.ok f
  | .obj none _, d => Except.ok d
  | _, _ => Except.error "AttributeError: entry has no attribute get"

/-- Checked variant of the loop body `processKey`: the indexing
`query_param_list[0]`, the `['lookups']` access and the `.get` call are
explicit raise points. -/
def processKeyE (filter_fields : List (String × FieldOption))
    (query_params : QueryParams) (mapping : String) (query_param : String) :
    Except String (List (String × FilterParam)) := do
  let query_param_list := split_lookup_filter query_param 1
  let field_name ← listGetE query_param_list 0
  match lookupField filter_fields field_name with
  | none => return []
  | some opts =>
    let lookup_param := query_param_list.get? 1
    let valid_lookups ← opts.lookupsE
    if lookupAllowed lookup_param valid_lookups then
      let values := cleanValues (getlist query_params query_param)
      if values.isEmpty then return []
      else
        let f ← opts.fieldGetE field_name
        return [(query_param, ⟨lookup_param, values, f, mapping⟩)]
    else return []

/-- Checked variant of `get_filter_query_params`. -/
def get_filter_query_paramsE (request : QueryParams) (view : View) :
    Except String (List (String × FilterParam)) :=
  let filter_fields := prepare_filter_fields view.geo_spatial_filter_fields
  request.foldlM (fun acc e => do
    let r ← processKeyE filter_fields request view.mapping e.1
    return acc ++ r) []

/-- Checked variant of `apply_query_geo_distance`. -/
def apply_query_geo_distanceE (queryset : List Clause) (options : FilterParam)
    (value : String) : Except String (List Clause) := do
  let params ← get_geo_distance_paramsE value options.field
  return queryset ++ [("geo_distance", params)]

/-- Checked variant of `applyValue`. -/
def applyValueE (queryset : List Clause) (options : FilterParam)
    (value : String) : Except String (List Clause) :=
  if options.lookup = some LOOKUP_FILTER_GEO_DISTANCE then
    apply_query_geo_distanceE queryset options value
  else return queryset

/-- Checked variant of `applyOptions`. -/
def applyOptionsE (queryset : List Clause) (options : FilterParam) :
    Except String (List Clause) :=
  options.values.foldlM (fun qs v => applyValueE qs options v) queryset

/-- Checked variant of `filter_queryset`. -/
def filter_querysetE (request : QueryParams) (queryset : List Clause)
    (view : View) : Except String (List Clause) := do
  let ps ← get_filter_query_paramsE request view
  ps.foldlM (fun qs e => applyOptionsE qs e.2) queryset

/-! Helper lemmas shared by the claim theorems. -/

theorem pySplit_ne_nil (sep : List Char) (m : Nat) (s : List Char) :
    pySplit sep m s ≠ [] := by
  cases m with
  | zero => simp [pySplit]
  | succ m => cases h : findSep sep s <;> simp [pySplit, h]

theorem pySplit_length_le (sep : List Char) (m : Nat) (s : List Char) :
    (pySplit sep m s).length ≤ m + 1 := by
  induction m generalizing s with
  | zero => simp [pySplit]
  | succ m ih =>
    cases h : findSep sep s with
    | none => simp [pySplit, h]
    | some pq =>
      simp only [pySplit, h, List.length_cons]
      exact Nat.succ_le_succ (ih pq.2)

theorem split_lookup_filter_ne_nil (v : String) (m : Nat) :
    split_lookup_filter v m ≠ [] := by
  intro h
  exact pySplit_ne_nil ['_', '_'] m v.toList (List.map_eq_nil_iff.mp h)

theorem split_lookup_value_length_le (v : String) (m : Nat) :
    (split_lookup_value v m).length ≤ m + 1 := by
  simpa [split_lookup_value] using pySplit_length_le [':'] m v.toList

theorem prepare_shape {ff : List (String × FieldOption)}
    {e : String × FieldOption} (h : e ∈ prepare_filter_fields ff) :
    ∃ f l, e.2 = FieldOption.obj (some f) (some l) := by
  rcases List.mem_map.mp h with ⟨⟨k, o⟩, _, rfl⟩
  rcases o with _ | s | ⟨f, l⟩
  · exact ⟨_, _, rfl⟩
  · exact ⟨_, _, rfl⟩
  · rcases f with _ | f <;> rcases l with _ | l <;> exact ⟨_, _, rfl⟩

theorem lookupField_mem {ff : List (String × FieldOption)} {k : String}
    {o : FieldOption} (h : lookupField ff k = some o) : (k, o) ∈ ff := by
  unfold lookupField at h
  rcases Option.map_eq_some'.mp h with ⟨e, he, rfl⟩
  have hp := List.find?_some he
  have hm := List.mem_of_find?_eq_some he
  have hk : e.1 = k := by simpa using hp
  rcases e with ⟨k0, o⟩
  subst hk
  exact hm

theorem lookupField_prepare_shape {ff : List (String × FieldOption)}
    {k : String} {o : FieldOption}
    (h : lookupField (prepare_filter_fields ff) k = some o) :
    ∃ f l, o = FieldOption.obj (some f) (some l) :=
  prepare_shape (lookupField_mem h)

theorem foldl_append_bind {α β : Type} (l : List α) (g : α → List β)
    (init : List β) :
    l.foldl (fun acc e => acc ++ g e) init = init ++ l.flatMap g := by
  induction l generalizing init with
  | nil => simp
  | cons a t ih => simp [ih, List.append_assoc]

theorem get_filter_query_params_eq (request : QueryParams) (view : View) :
    get_filter_query_params request view =
      request.flatMap (fun e =>
        processKey (prepare_filter_fields view.geo_spatial_filter_fields)
          request view.mapping e.1) := by
  unfold get_filter_query_params
  simpa using foldl_append_bind request _ []

theorem mem_processKey {ff : List (String × FieldOption)} {qp : QueryParams}
    {m q : String} {x : String × FilterParam}
    (h : x ∈ processKey ff qp m q) :
    ∃ opts,
      lookupField ff ((split_lookup_filter q 1).headD "") = some opts ∧
      lookupAllowed ((split_lookup_filter q 1).get? 1) opts.lookupsGet = true ∧
      cleanValues (getlist qp q) ≠ [] ∧
      x = (q, ⟨(split_lookup_filter q 1).get? 1, cleanValues (getlist qp q),
        opts.fieldGetD ((split_lookup_filter q 1).headD ""), m⟩) := by
  simp only [processKey] at h
  cases hlf : lookupField ff ((split_lookup_filter q 1).headD "") with
  | none => rw [hlf] at h; simp at h
  | some opts =>
    rw [hlf] at h
    dsimp only at h
    by_cases hall : lookupAllowed ((split_lookup_filter q 1).get? 1)
        opts.lookupsGet = true
    · rw [if_pos hall] at h
      by_cases hemp : (cleanValues (getlist qp q)).isEmpty = true
      · rw [if_pos hemp] at h; simp at h
      · rw [if_neg hemp] at h
        refine ⟨opts, rfl, hall, ?_, ?_⟩
        · intro hnil
          exact hemp (by simp [hnil])
        · exact List.mem_singleton.mp h
    · rw [if_neg hall] at h; simp at h

theorem processKey_mem_output {request : QueryParams} {view : View}
    {k : String} {vs : List String} (hmem : (k, vs) ∈ request)
    {x : String × FilterParam}
    (hx : x ∈ processKey (prepare_filter_fields view.geo_spatial_filter_fields)
      request view.mapping k) :
    x ∈ get_filter_query_params request view := by
  rw [get_filter_query_params_eq]
  exact List.mem_flatMap.mpr ⟨(k, vs), hmem, hx⟩

theorem applyValue_ne {qs : List Clause} {options : FilterParam} {v : String}
    (h : options.lookup ≠ some LOOKUP_FILTER_GEO_DISTANCE) :
    applyValue qs options v = qs := by
  simp [applyValue, h]

theorem foldl_applyValue_ne {options : FilterParam}
    (h : options.lookup ≠ some LOOKUP_FILTER_GEO_DISTANCE) :
    ∀ (vs : List String) (qs : List Clause),
      vs.foldl (fun q v => applyValue q options v) qs = qs := by
  intro vs
  induction vs with
  | nil => intro qs; rfl
  | cons v t ih =>
    intro qs
    rw [List.foldl_cons, applyValue_ne h, ih]

theorem applyOptions_ne {qs : List Clause} {options : FilterParam}
    (h : options.lookup ≠ some LOOKUP_FILTER_GEO_DISTANCE) :
    applyOptions qs options = qs :=
  foldl_applyValue_ne h options.values qs

theorem foldl_applyValue_geo {options : FilterParam}
    (h : options.lookup = some LOOKUP_FILTER_GEO_DISTANCE) :
    ∀ (vs : List String) (qs : List Clause),
      vs.foldl (fun q v => applyValue q options v) qs =
        qs ++ vs.map (fun v =>
          ("geo_distance", get_geo_distance_params v options.field)) := by
  intro vs
  induction vs with
  | nil => intro qs; simp
  | cons v t ih =>
    intro qs
    rw [List.foldl_cons, ih]
    simp [applyValue, h, apply_query_geo_distance]

theorem applyOptions_eq (qs : List Clause) (options : FilterParam) :
    applyOptions qs options =
      qs ++ (if options.lookup = some LOOKUP_FILTER_GEO_DISTANCE then
        options.values.map (fun v =>
          ("geo_distance", get_geo_distance_params v options.field))
      else []) := by
  by_cases h : options.lookup = some LOOKUP_FILTER_GEO_DISTANCE
  · rw [if_pos h]
    exact foldl_applyValue_geo h options.values qs
  · rw [if_neg h, List.append_nil]
    exact applyOptions_ne h

theorem filter_queryset_clauses (request : QueryParams) (queryset : List Clause)
    (view : View) :
    filter_queryset request queryset view =
      queryset ++ (get_filter_query_params request view).flatMap (fun e =>
        if e.2.lookup = some LOOKUP_FILTER_GEO_DISTANCE then
          e.2.values.map (fun v =>
            ("geo_distance", get_geo_distance_params v e.2.field))
        else []) := by
  unfold filter_queryset
  generalize get_filter_query_params request view = ps
  induction ps generalizing queryset with
  | nil => simp
  | cons p t ih =>
    rw [List.foldl_cons, ih, applyOptions_eq]
    simp [List.append_assoc]

theorem exceptBind_ok {A B : Type} (a : A) (f : A → Except String B) :
    (Except.ok a >>= f) = f a := rfl

theorem exceptMap_ok {A B : Type} (a : A) (f : A → B) :
    (f <$> (Except.ok a : Except String A)) = Except.ok (f a) := rfl

theorem exceptPure {A : Type} (a : A) :
    (pure a : Except String A) = Except.ok a := rfl

theorem get_geo_distance_paramsE_ok (value field : String) :
    get_geo_distance_paramsE value field =
      Except.ok (get_geo_distance_params value field) := by
  have hle := split_lookup_value_length_le value 3
  unfold get_geo_distance_paramsE get_geo_distance_params
  dsimp only
  rcases hxs : split_lookup_value value 3 with _ | ⟨a, _ | ⟨b, _ | ⟨c, _ | ⟨d, rest⟩⟩⟩⟩
  · rfl
  · rfl
  · rfl
  · rfl
  · rcases rest with _ | ⟨e, rest⟩
    · rfl
    · rw [hxs] at hle
      simp at hle

theorem processKeyE_ok (ff : List (String × FieldOption)) (qp : QueryParams)
    (m q : String) :
    processKeyE (prepare_filter_fields ff) qp m q =
      Except.ok (processKey (prepare_filter_fields ff) qp m q) := by
  have hne := split_lookup_filter_ne_nil q 1
  unfold processKeyE processKey
  dsimp only
  rcases hsp : split_lookup_filter q 1 with _ | ⟨a, tail⟩
  · exact absurd hsp hne
  · cases hlf : lookupField (prepare_filter_fields ff) a with
    | none => simp [listGetE, exceptBind_ok, exceptPure, hlf]
    | some opts =>
      obtain ⟨f0, l0, rfl⟩ := lookupField_prepare_shape hlf
      by_cases hall : lookupAllowed tail[0]? l0 = true
      · by_cases hemp : cleanValues (getlist qp q) = []
        · simp [listGetE, exceptBind_ok, exceptMap_ok, exceptPure, hlf,
            FieldOption.lookupsE, FieldOption.lookupsGet, hall, hemp]
        · simp [listGetE, exceptBind_ok, exceptMap_ok, exceptPure, hlf,
            FieldOption.lookupsE, FieldOption.lookupsGet,
            FieldOption.fieldGetE, FieldOption.fieldGetD, hall, hemp]
      · simp [listGetE, exceptBind_ok, exceptMap_ok, exceptPure, hlf,
          FieldOption.lookupsE, FieldOption.lookupsGet, hall]

theorem get_filter_query_paramsE_ok (request : QueryParams) (view : View) :
    get_filter_query_paramsE request view =
      Except.ok (get_filter_query_params request view) := by
  unfold get_filter_query_paramsE get_filter_query_params
  dsimp only
  suffices h : ∀ (l : QueryParams) (init : List (String × FilterParam)),
      (l.foldlM (fun acc e => do
        let r ← processKeyE
          (prepare_filter_fields view.geo_spatial_filter_fields)
          request view.mapping e.1
        return acc ++ r) init)
      = Except.ok (l.foldl (fun acc e =>
          acc ++ processKey
            (prepare_filter_fields view.geo_spatial_filter_fields)
            request view.mapping e.1) init) by
    exact h request []
  intro l
  induction l with
  | nil => intro init; rfl
  | cons e t ih =>
    intro init
    rw [List.foldlM_cons, processKeyE_ok]
    simpa [List.foldl_cons] using ih (init ++ processKey
      (prepare_filter_fields view.geo_spatial_filter_fields)
      request view.mapping e.1)

theorem applyValueE_ok (qs : List Clause) (options : FilterParam) (v : String) :
    applyValueE qs options v = Except.ok (applyValue qs options v) := by
  unfold applyValueE applyValue
  by_cases h : options.lookup = some LOOKUP_FILTER_GEO_DISTANCE
  · rw [if_pos h, if_pos h]
    unfold apply_query_geo_distanceE apply_query_geo_distance
    rw [get_geo_distance_paramsE_ok]
    rfl
  · rw [if_neg h, if_neg h]
    rfl

theorem applyOptionsE_ok (qs : List Clause) (options : FilterParam) :
    applyOptionsE qs options = Except.ok (applyOptions qs options) := by
  unfold applyOptionsE applyOptions
  generalize options.values = vs
  induction vs generalizing qs with
  | nil => rfl
  | cons v t ih =>
    rw [List.foldlM_cons, applyValueE_ok]
    simpa [List.foldl_cons] using ih (applyValue qs options v)

theorem foldlM_applyOptions_ok (ps : List (String × FilterParam))
    (qs : List Clause) :
    (ps.foldlM (fun q e => applyOptionsE q e.2) qs)
      = Except.ok (ps.foldl (fun q e => applyOptions q e.2) qs) := by
  induction ps generalizing qs with
  | nil => rfl
  | cons p t ih =>
    rw [List.foldlM_cons, applyOptionsE_ok]
    simpa [List.foldl_cons] using ih (applyOptions qs p.2)

theorem filter_querysetE_ok (request : QueryParams) (queryset : List Clause)
    (view : View) :
    filter_querysetE request queryset view =
      Except.ok (filter_queryset request queryset view) := by
  unfold filter_querysetE filter_queryset
  rw [get_filter_query_paramsE_ok]
  exact foldlM_applyOptions_ok (get_filter_query_params request view) queryset

/-! The claim theorems. -/

/-- C1, counterexample: at the query value `"12km:45.0"` (2 components) the
value parser returns the empty parameter set, yet `filter_queryset` does
not leave the builder unchanged — `apply_query_geo_distance` appends a
geo-distance clause unconditionally, so the builder gains a clause with
empty parameters. -/
theorem short_value_clause_still_appended_cex :
    get_geo_distance_params "12km:45.0" "location" = [] ∧
    filter_queryset [("loc__geo_distance", ["12km:45.0"])] []
      ⟨[("loc", FieldOption.str "location")], "article"⟩ ≠ [] := by
  decide

/-- C1, amended: for every geo-distance value splitting into fewer than 3
components, the value parser returns an empty result, but a geo-distance
clause with an empty parameter set is still appended for that value — the
builder is not left unchanged. -/
theorem short_value_empty_params_clause_appended
    (options : FilterParam) (queryset : List Clause) (value : String)
    (h : (split_lookup_value value 3).length < 3) :
    get_geo_distance_params value options.field = [] ∧
    apply_query_geo_distance queryset options value =
      queryset ++ [("geo_distance", [])] := by
  have hp : get_geo_distance_params value options.field = [] := by
    unfold get_geo_distance_params
    dsimp only
    rw [if_pos h]
  refine ⟨hp, ?_⟩
  unfold apply_query_geo_distance
  rw [hp]

/-- C1, witness for the amended theorem at the 2-component value
`"12km:45.0"`. -/
theorem short_value_empty_params_clause_appended_witness :
    get_geo_distance_params "12km:45.0" "location" = [] ∧
    apply_query_geo_distance []
      ⟨some "geo_distance", ["12km:45.0"], "location", "article"⟩
      "12km:45.0" = [("geo_distance", [])] :=
  short_value_empty_params_clause_appended
    ⟨some "geo_distance", ["12km:45.0"], "location", "article"⟩
    [] "12km:45.0" (by decide)

/-- C2, counterexample: when the target field name is itself `"distance"`,
the dict literal of `get_geo_distance_params` collides on the key
`"distance"`, so at the 3-component value `"12km:45.0:-70.0"` no key of
the result holds the distance component `"12km"` — the claimed shape
`{distance: component[0], target_field: {lat, lon}, distance_type}` does
not hold for every field name. -/
theorem geo_distance_params_field_collision_cex :
    get_geo_distance_params "12km:45.0:-70.0" "distance" =
      [("distance", PVal.pt "45.0" "-70.0"),
       ("distance_type", PVal.s "sloppy_arc")] ∧
    dictFind (get_geo_distance_params "12km:45.0:-70.0" "distance")
      "distance" ≠ some (PVal.s "12km") := by
  decide

/-- C2, amended: provided the target field name is neither `"distance"`
nor `"distance_type"` (otherwise the dynamically-keyed dict collides), a
value splitting into exactly 3 components yields
`{distance: c0, field: {lat: c1, lon: c2}, distance_type: "sloppy_arc"}`,
and a value splitting into exactly 4 components yields the same with
`distance_type` equal to the fourth component verbatim. -/
theorem geo_distance_params_three_or_four_components
    (value field d la lo dt : String)
    (h1 : field ≠ "distance") (h2 : field ≠ "distance_type") :
    (split_lookup_value value 3 = [d, la, lo] →
      get_geo_distance_params value field =
        [("distance", PVal.s d), (field, PVal.pt la lo),
         ("distance_type", PVal.s "sloppy_arc")]) ∧
    (split_lookup_value value 3 = [d, la, lo, dt] →
      get_geo_distance_params value field =
        [("distance", PVal.s d), (field, PVal.pt la lo),
         ("distance_type", PVal.s dt)]) := by
  have hd : ¬ ("distance" = field) := fun hh => h1 hh.symm
  constructor
  · intro hs
    unfold get_geo_distance_params
    dsimp only
    rw [hs]
    simp [dictInsert, hd, h2]
  · intro hs
    unfold get_geo_distance_params
    dsimp only
    rw [hs]
    simp [dictInsert, hd, h2]

/-- C2, witness for the amended theorem at the 4-component value
`"12km:45.0:-70.0:plane"` and field `"location"`. -/
theorem geo_distance_params_three_or_four_components_witness :
    get_geo_distance_params "12km:45.0:-70.0:plane" "location" =
      [("distance", PVal.s "12km"), ("location", PVal.pt "45.0" "-70.0"),
       ("distance_type", PVal.s "plane")] :=
  (geo_distance_params_three_or_four_components "12km:45.0:-70.0:plane"
    "location" "12km" "45.0" "-70.0" "plane"
    (by decide) (by decide)).2 (by decide)

/-- C3: for every parsed filter parameter whose lookup is not the
geo-distance lookup identifier, `filter_queryset` applies no clause; in
particular, when no extracted parameter has the geo-distance lookup, the
returned builder equals the original input unchanged. -/
theorem non_geo_distance_lookups_inert
    (request : QueryParams) (queryset : List Clause) (view : View)
    (h : ∀ e ∈ get_filter_query_params request view,
      e.2.lookup ≠ some LOOKUP_FILTER_GEO_DISTANCE) :
    filter_queryset request queryset view = queryset := by
  unfold filter_queryset
  suffices H : ∀ (ps : List (String × FilterParam)),
      (∀ e ∈ ps, e.2.lookup ≠ some LOOKUP_FILTER_GEO_DISTANCE) →
      ∀ qs : List Clause, ps.foldl (fun q e => applyOptions q e.2) qs = qs by
    exact H _ h queryset
  intro ps
  induction ps with
  | nil => intro _ qs; rfl
  | cons p t ih =>
    intro hh qs
    rw [List.foldl_cons, applyOptions_ne (hh p (List.mem_cons_self p t))]
    exact ih (fun e he => hh e (List.mem_cons_of_mem p he)) qs

/-- C3, witness: a request whose only extracted parameter has no lookup
suffix leaves a non-empty builder unchanged. -/
theorem non_geo_distance_lookups_inert_witness :
    filter_queryset [("loc", ["1:2:3"])] [("match_all", [])]
      ⟨[("loc", FieldOption.str "location")], "article"⟩ =
      [("match_all", [])] :=
  non_geo_distance_lookups_inert _ _ _ (by decide)

/-- C4: a query parameter key appears in the extractor output only if the
part before the first double-underscore separator is a configured field
name and either no lookup suffix is present or the suffix is in that
field's allowed-lookups set. -/
theorem filter_query_params_only_configured_and_allowed
    (request : QueryParams) (view : View) (k : String) (p : FilterParam)
    (h : (k, p) ∈ get_filter_query_params request view) :
    ∃ opts,
      lookupField (prepare_filter_fields view.geo_spatial_filter_fields)
        ((split_lookup_filter k 1).headD "") = some opts ∧
      ((split_lookup_filter k 1).get? 1 = none ∨
        ∃ lp, (split_lookup_filter k 1).get? 1 = some lp ∧
          lp ∈ opts.lookupsGet) := by
  rw [get_filter_query_params_eq] at h
  rcases List.mem_flatMap.mp h with ⟨e, _, hpe⟩
  rcases mem_processKey hpe with ⟨opts, hlf, hall, _, hx⟩
  rw [Prod.mk.injEq] at hx
  obtain ⟨rfl, -⟩ := hx
  refine ⟨opts, hlf, ?_⟩
  cases hl : (split_lookup_filter e.1 1).get? 1 with
  | none => exact Or.inl rfl
  | some lp =>
    refine Or.inr ⟨lp, rfl, ?_⟩
    rw [hl] at hall
    simpa [lookupAllowed] using hall

/-- C4, witness at a recognized key with an allowed suffix. -/
theorem filter_query_params_only_configured_and_allowed_witness :
    ∃ opts,
      lookupField (prepare_filter_fields [("loc", FieldOption.str "location")])
        ((split_lookup_filter "loc__geo_distance" 1).headD "") = some opts ∧
      ((split_lookup_filter "loc__geo_distance" 1).get? 1 = none ∨
        ∃ lp, (split_lookup_filter "loc__geo_distance" 1).get? 1 = some lp ∧
          lp ∈ opts.lookupsGet) :=
  filter_query_params_only_configured_and_allowed
    [("loc__geo_distance", ["12km:45.0:-70.0"])]
    ⟨[("loc", FieldOption.str "location")], "article"⟩
    "loc__geo_distance"
    ⟨some "geo_distance", ["12km:45.0:-70.0"], "location", "article"⟩
    (by decide)

/-- C5: every extracted parameter's value list is exactly the raw values
whitespace-trimmed with empties discarded (hence non-empty), and a key
whose values are all discarded is absent from the extractor output. -/
theorem filter_query_params_values_trimmed_nonempty
    (request : QueryParams) (view : View) (k : String) (p : FilterParam) :
    ((k, p) ∈ get_filter_query_params request view →
      p.values = cleanValues (getlist request k) ∧ p.values ≠ []) ∧
    (cleanValues (getlist request k) = [] →
      (k, p) ∉ get_filter_query_params request view) := by
  constructor
  · intro h
    rw [get_filter_query_params_eq] at h
    rcases List.mem_flatMap.mp h with ⟨e, _, hpe⟩
    rcases mem_processKey hpe with ⟨opts, -, -, hne, hx⟩
    rw [Prod.mk.injEq] at hx
    obtain ⟨rfl, rfl⟩ := hx
    exact ⟨rfl, hne⟩
  · intro hnil h
    rw [get_filter_query_params_eq] at h
    rcases List.mem_flatMap.mp h with ⟨e, -, hpe⟩
    rcases mem_processKey hpe with ⟨opts, -, -, hne, hx⟩
    rw [Prod.mk.injEq] at hx
    obtain ⟨rfl, -⟩ := hx
    exact hne hnil

/-- C5, witness: values are trimmed and a blank value is dropped; a key
with only blank values is absent. -/
theorem filter_query_params_values_trimmed_nonempty_witness :
    ((⟨some "geo_distance", ["12km:45.0:-70.0"], "location",
        "article"⟩ : FilterParam).values =
      cleanValues (getlist
        [("loc__geo_distance", ["  12km:45.0:-70.0  ", " "])]
        "loc__geo_distance") ∧
      (⟨some "geo_distance", ["12km:45.0:-70.0"], "location",
        "article"⟩ : FilterParam).values ≠ []) ∧
    ("loc", (⟨none, ["x"], "location", "article"⟩ : FilterParam)) ∉
      get_filter_query_params [("loc", ["  ", ""])]
        ⟨[("loc", FieldOption.str "location")], "article"⟩ :=
  ⟨(filter_query_params_values_trimmed_nonempty
      [("loc__geo_distance", ["  12km:45.0:-70.0  ", " "])]
      ⟨[("loc", FieldOption.str "location")], "article"⟩
      "loc__geo_distance"
      ⟨some "geo_distance", ["12km:45.0:-70.0"], "location", "article"⟩).1
      (by decide),
   (filter_query_params_values_trimmed_nonempty
      [("loc", ["  ", ""])]
      ⟨[("loc", FieldOption.str "location")], "article"⟩
      "loc"
      ⟨none, ["x"], "location", "article"⟩).2 (by decide)⟩

/-- C6: normalization maps a `None` or plain-string entry to the target
field (the string, or the logical key when `None` or empty) with the full
supported lookup set; partial objects have a missing `field` filled with
the logical key and missing `lookups` filled with the full set; no entry
is rejected (the output has one entry per input entry). -/
theorem prepare_filter_fields_normalization
    (ff : List (String × FieldOption)) (k : String) :
    ((k, FieldOption.null) ∈ ff →
      (k, FieldOption.obj (some k)
        (some ALL_GEO_SPATIAL_LOOKUP_FILTERS_AND_QUERIES)) ∈
        prepare_filter_fields ff) ∧
    (∀ s, (k, FieldOption.str s) ∈ ff →
      (k, FieldOption.obj (some (if s = "" then k else s))
        (some ALL_GEO_SPATIAL_LOOKUP_FILTERS_AND_QUERIES)) ∈
        prepare_filter_fields ff) ∧
    (∀ f l, (k, FieldOption.obj f l) ∈ ff →
      (k, FieldOption.obj (some (f.getD k))
        (some (l.getD ALL_GEO_SPATIAL_LOOKUP_FILTERS_AND_QUERIES))) ∈
        prepare_filter_fields ff) ∧
    (prepare_filter_fields ff).length = ff.length := by
  refine ⟨?_, ?_, ?_, by simp [prepare_filter_fields]⟩
  · intro h
    exact List.mem_map.mpr ⟨(k, FieldOption.null), h, rfl⟩
  · intro s h
    exact List.mem_map.mpr ⟨(k, FieldOption.str s), h, rfl⟩
  · intro f l h
    rcases f with _ | f <;> rcases l with _ | l <;>
      exact List.mem_map.mpr ⟨(k, FieldOption.obj _ _), h, rfl⟩

/-- C6, witness on a configuration holding all three entry shapes. -/
theorem prepare_filter_fields_normalization_witness :
    ("b", FieldOption.obj (some "bee")
      (some ALL_GEO_SPATIAL_LOOKUP_FILTERS_AND_QUERIES)) ∈
      prepare_filter_fields
        [("a", FieldOption.null), ("b", FieldOption.str "bee"),
         ("c", FieldOption.obj none (some ["geo_distance"]))] :=
  (prepare_filter_fields_normalization
    [("a", FieldOption.null), ("b", FieldOption.str "bee"),
     ("c", FieldOption.obj none (some ["geo_distance"]))] "b").2.1
    "bee" (by decide)

/-- C7: the builder returned by `filter_queryset` is the input builder
followed by, for each extracted parameter in order, one geo-distance
clause per value in the order the values appear — each value of a
recognized geo-distance parameter independently produces its own clause;
parameters with any other lookup contribute nothing. -/
theorem geo_distance_clauses_per_value_in_order
    (request : QueryParams) (queryset : List Clause) (view : View) :
    filter_queryset request queryset view =
      queryset ++ (get_filter_query_params request view).flatMap (fun e =>
        if e.2.lookup = some LOOKUP_FILTER_GEO_DISTANCE then
          e.2.values.map (fun v =>
            ("geo_distance", get_geo_distance_params v e.2.field))
        else []) :=
  filter_queryset_clauses request queryset view

/-- C8: the component raises no exception — on every field configuration
and every multi-valued query-parameter mapping, the checked variants of
the parser, the extractor and the clause applicator (in which every
Python raise point is explicit) return `ok` with the value of the total
functions. -/
theorem component_total_no_exceptions
    (request : QueryParams) (view : View) (queryset : List Clause)
    (value fieldName : String) :
    get_geo_distance_paramsE value fieldName =
      Except.ok (get_geo_distance_params value fieldName) ∧
    get_filter_query_paramsE request view =
      Except.ok (get_filter_query_params request view) ∧
    filter_querysetE request queryset view =
      Except.ok (filter_queryset request queryset view) :=
  ⟨get_geo_distance_paramsE_ok value fieldName,
   get_filter_query_paramsE_ok request view,
   filter_querysetE_ok request queryset view⟩

/-- C9: field-configuration normalization is idempotent — applying
`prepare_filter_fields` to an already-normalized configuration changes
nothing. -/
theorem prepare_filter_fields_idempotent (ff : List (String × FieldOption)) :
    prepare_filter_fields (prepare_filter_fields ff) =
      prepare_filter_fields ff := by
  induction ff with
  | nil => rfl
  | cons e t ih =>
    simp only [prepare_filter_fields, List.map_cons, List.cons.injEq]
    refine ⟨?_, ?_⟩
    · rcases e with ⟨k, o⟩
      rcases o with _ | s | ⟨_ | f, _ | l⟩ <;> rfl
    · simpa only [prepare_filter_fields] using ih

/-- C10: a query parameter whose key has no lookup suffix passes the
lookup check (its lookup is `none`), so — when its field is configured
and it has surviving values — it is included in the extractor output;
yet only the exact geo-distance lookup identifier is dispatched, so a
parameter with lookup `none` contributes no clause and leaves the
builder unchanged. -/
theorem no_suffix_param_extracted_but_inert
    (request : QueryParams) (view : View) (k : String) (vs : List String)
    (opts : FieldOption)
    (hmem : (k, vs) ∈ request)
    (hsplit : split_lookup_filter k 1 = [k])
    (hconf : lookupField
      (prepare_filter_fields view.geo_spatial_filter_fields) k = some opts)
    (hvals : cleanValues (getlist request k) ≠ []) :
    (k, (⟨none, cleanValues (getlist request k), opts.fieldGetD k,
        view.mapping⟩ : FilterParam)) ∈
      get_filter_query_params request view ∧
    (∀ (p : FilterParam) (qs : List Clause), p.lookup = none →
      applyOptions qs p = qs) := by
  constructor
  · apply processKey_mem_output hmem
    unfold processKey
    dsimp only
    rw [hsplit]
    simp only [List.headD_cons]
    rw [hconf]
    dsimp only
    rw [if_pos (by rfl)]
    rw [if_neg (by simpa using hvals)]
    exact List.mem_singleton.mpr rfl
  · intro p qs hp
    exact applyOptions_ne (by simp [hp])

/-- C10, witness: the suffix-free key `"loc"` is extracted with lookup
`none` and applies no clause. -/
theorem no_suffix_param_extracted_but_inert_witness :
    ("loc", (⟨none, ["1:2:3"], "location", "article"⟩ : FilterParam)) ∈
      get_filter_query_params [("loc", ["1:2:3"])]
        ⟨[("loc", FieldOption.str "location")], "article"⟩ ∧
    applyOptions [("match_all", [])]
      ⟨none, ["1:2:3"], "location", "article"⟩ = [("match_all", [])] := by
  have h := no_suffix_param_extracted_but_inert [("loc", ["1:2:3"])]
    ⟨[("loc", FieldOption.str "location")], "article"⟩ "loc" ["1:2:3"]
    (FieldOption.obj (some "location")
      (some ALL_GEO_SPATIAL_LOOKUP_FILTERS_AND_QUERIES))
    (by decide) (by decide) (by decide) (by decide)
  exact ⟨h.1, h.2 _ _ rfl⟩

end GeoSpatial
